import Mathlib

/-!
Verification of the IMU paddle control loop of imu_demo.c.

The file embeds the control-loop code of src/imu_demo.c: the fixed-point
arithmetic it relies on, the sensor fusion filter, the clamping of the
fused angle, the proportional actuator mapper with its travel-range
clamp, the autonomous second paddle, the serial gain-update branch, and
the sequence of collaborator calls each thread iteration performs.
Theorems about these definitions settle the specified properties.

Conventions of the embedding:
- fix15 values are integers scaled by 2 to the 16 (the fixed-point header
  is not part of src/, so the representation follows the spec: 16
  fractional bits, multiply truncates low bits, divide scales up first,
  conversion from a real constant rounds to nearest).
- The C arithmetic right shift on a signed value is floor division by a
  power of two; Lean division on Int is Euclidean division, which equals
  floor division for a positive divisor, so the shift is written with /.
- The C integer division of divfix truncates toward zero: Int.tdiv.
- The accelerometer angle of source line 111 is produced by a floating
  point atan2 chain; it enters each iteration as an unconstrained oracle
  parameter, so theorems quantified over it cover every value that
  computation can produce.
-/

namespace ImuDemo

/-- Modelled from the spec: integer to fixed point conversion (exact),
the int2fix15 of the source headers. -/
def int2fix15 (n : Int) : Int := n * 65536

/-- Modelled from the spec: fixed point to integer conversion as a right
shift by 16 on the underlying integer (floor division). -/
def fix2int15 (x : Int) : Int := x / 65536

/-- Modelled from the spec: fixed-point multiply computes the exact
double-width product and discards the low 16 bits (a right shift, so
floor division by 2 to the 16). -/
def multfix15 (a b : Int) : Int := (a * b) / 65536

/-- Modelled from the spec: fixed-point divide scales the dividend up by
2 to the 16 before integer division; C integer division truncates toward
zero. -/
def divfix (a b : Int) : Int := Int.tdiv (a * 65536) b

/-- Modelled from the spec: the constant zeropt999 of the source, the
nearest fixed-point value to 0.999 (0.999 times 65536 is 65470.464,
rounded to 65470). -/
def zeropt999 : Int := 65470

/-- Modelled from the spec: the constant zeropt001 of the source, the
nearest fixed-point value to 0.001 (0.001 times 65536 is 65.536, rounded
to 66). -/
def zeropt001 : Int := 66

/-- Single-pole low-pass filter step, the inline pattern of source lines
107, 108 and 118: prev + ((sample - prev) >> shift). The arithmetic
right shift is floor division by 2 to the shift. -/
def exponentialSmooth (prev sample : Int) (shift : Nat) : Int :=
  prev + (sample - prev) / ((2 : Int) ^ shift)

/-- Paddle length in pixels (source line 76). -/
def PADDLE_LENGTH : Int := 40

/-- Bottom of the frame in pixels (source line 77). -/
def VGA_BOTTOM : Int := 480

/-- X position of paddle 1 (source line 74). -/
def PADDLE1_X : Int := 40

/-- X position of paddle 2 (source line 75). -/
def PADDLE2_X : Int := 590

/-- Draw speed threshold (source line 54). It is declared with value 10
and read nowhere else in the file. -/
def threshold : Int := 10

/-- First clamp of source lines 121 to 124: a fused angle above 180
degrees is replaced by 180 degrees. -/
def clampHigh (x : Int) : Int :=
  if x > int2fix15 180 then int2fix15 180 else x

/-- Sequential clamps of source lines 121 to 128: after the high clamp,
a negative value is replaced by zero. -/
def clampAngle (x : Int) : Int :=
  if clampHigh x < 0 then 0 else clampHigh x

/-- Proportional mapper of source line 131:
paddle1_vy = divfix(filtered_complementary - int2fix15(90), int2fix15(10)). -/
def paddle1Vy (angle : Int) : Int :=
  divfix (angle - int2fix15 90) (int2fix15 10)

/-- Position update of source lines 132 to 143: the tentative position
y + vy is clamped to the travel range. -/
def paddle1Move (y vy : Int) : Int :=
  if y + vy ≤ 0 then 0
  else if y + vy + int2fix15 PADDLE_LENGTH ≥ int2fix15 VGA_BOTTOM then
    int2fix15 (VGA_BOTTOM - PADDLE_LENGTH)
  else y + vy

/-- One raw IMU sample: the accelerometer components and the gyro rate
the loop body reads (acceleration[1], acceleration[2], gyro[0]). -/
structure RawSample where
  accel1 : Int
  accel2 : Int
  gyro0 : Int
  deriving DecidableEq

/-- The mutable state the paddle 1 thread owns (source lines 66 to 71,
85, 86). -/
structure Paddle1State where
  filtered_ax : Int
  filtered_ay : Int
  complementary_angle : Int
  filtered_complementary : Int
  paddle1_y : Int
  paddle1_vy : Int
  deriving DecidableEq

/-- One iteration of the protothread_paddle1 loop body (source lines 97
to 146): smooth the accelerometer components, integrate the gyro rate,
fuse, smooth again, clamp, map to a velocity and move the paddle. The
accelAngle parameter is the oracle value of the floating point
computation of line 111. -/
def paddle1Iter (s : Paddle1State) (raw : RawSample) (accelAngle : Int) :
    Paddle1State :=
  let fax := exponentialSmooth s.filtered_ax raw.accel1 4
  let fay := exponentialSmooth s.filtered_ay raw.accel2 4
  let gyro_angle_delta := multfix15 raw.gyro0 zeropt001
  let ca := multfix15 (s.complementary_angle + gyro_angle_delta) zeropt999 +
    multfix15 accelAngle zeropt001
  let fc := clampAngle (exponentialSmooth s.filtered_complementary ca 4)
  let vy := paddle1Vy fc
  let y := paddle1Move s.paddle1_y vy
  { filtered_ax := fax, filtered_ay := fay, complementary_angle := ca,
    filtered_complementary := fc, paddle1_y := y, paddle1_vy := vy }

/-- Run of the paddle 1 loop over a sequence of raw samples, each paired
with the oracle accelerometer angle of its iteration. -/
def paddle1Run (s : Paddle1State) (inputs : List (RawSample × Int)) :
    Paddle1State :=
  inputs.foldl (fun st p => paddle1Iter st p.1 p.2) s

/-- The mutable state the paddle 2 thread owns (source lines 87, 88). -/
structure Paddle2State where
  paddle2_y : Int
  paddle2_vy : Int
  deriving DecidableEq

/-- Initial paddle 2 state of source lines 87 and 88:
paddle2_y = int2fix15(240), paddle2_vy = 0. -/
def paddle2Init : Paddle2State :=
  { paddle2_y := int2fix15 240, paddle2_vy := 0 }

/-- One iteration of the protothread_paddle2 loop body (source lines 162
to 175): two independent boundary tests set the velocity, then the
position advances by the velocity. Both tests read the position the
iteration started with; the second test overrides the first. -/
def paddle2Iter (s : Paddle2State) : Paddle2State :=
  let vyTop := if s.paddle2_y ≤ 0 then int2fix15 5 else s.paddle2_vy
  let vy := if s.paddle2_y + int2fix15 PADDLE_LENGTH ≥ int2fix15 VGA_BOTTOM
    then int2fix15 (-5) else vyTop
  { paddle2_y := s.paddle2_y + vy, paddle2_vy := vy }

/-- n iterations of the paddle 2 loop body. -/
def paddle2RunN : Nat → Paddle2State → Paddle2State
  | 0, s => s
  | n + 1, s => paddle2RunN n (paddle2Iter s)

/-- Color argument of the drawRect calls of the two paddle threads. -/
inductive RectColor
  | black
  | white
  deriving DecidableEq

/-- A collaborator call made by a thread loop body. -/
inductive LoopEvent
  | drawRect (x y w h : Int) (c : RectColor)
  | imuRead
  | semWait
  deriving DecidableEq

/-- The sequence of collaborator calls in one iteration of
protothread_paddle1 (source lines 97, 103 and 146), parameterized by the
paddle position before and after the iteration: erase at the old
position, read the IMU, draw at the new position. No wait on
vga_semaphore occurs anywhere in the thread; the semaphore declared at
source line 62 is never used. -/
def paddle1Events (yOld yNew : Int) : List LoopEvent :=
  [LoopEvent.drawRect PADDLE1_X (fix2int15 yOld) 10 PADDLE_LENGTH
      RectColor.black,
    LoopEvent.imuRead,
    LoopEvent.drawRect PADDLE1_X (fix2int15 yNew) 10 PADDLE_LENGTH
      RectColor.white]

/-- The sequence of collaborator calls in one iteration of
protothread_paddle2 (source lines 162 and 175): erase, then draw at the
new position. No wait on vga_semaphore occurs in this thread either. -/
def paddle2Events (yOld yNew : Int) : List LoopEvent :=
  [LoopEvent.drawRect PADDLE2_X (fix2int15 yOld) 10 PADDLE_LENGTH
      RectColor.black,
    LoopEvent.drawRect PADDLE2_X (fix2int15 yNew) 10 PADDLE_LENGTH
      RectColor.white]

/-- The p branch of protothread_serial (source lines 200 to 211): the
console number is parsed into int_in, but kp is then assigned
int2fix15(test_in), where test_in is an identifier declared nowhere in
the file; its stale value enters here as a parameter. The result pair is
(int_in, kp) after the branch. -/
def serialPBranch (input : Int) (test_in : Int) : Int × Int :=
  (input, int2fix15 test_in)

/-- The angle clamp always lands in the range from 0 to 180 degrees. -/
lemma clampAngle_range (x : Int) :
    0 ≤ clampAngle x ∧ clampAngle x ≤ int2fix15 180 := by
  unfold clampAngle clampHigh int2fix15
  split_ifs <;> omega

/-- Helper: truncating division by 655360 of a value bounded by
386547056640 in absolute value is bounded by 589824 in absolute value. -/
lemma tdiv_bound (t : Int) (h1 : -386547056640 ≤ t) (h2 : t ≤ 386547056640) :
    -589824 ≤ Int.tdiv t 655360 ∧ Int.tdiv t 655360 ≤ 589824 := by
  rcases le_total 0 t with h | h
  · rw [Int.tdiv_eq_ediv h (by decide)]
    omega
  · have e : Int.tdiv t 655360 = -(Int.tdiv (-t) 655360) := by
      rw [← Int.neg_tdiv, neg_neg]
    rw [e, Int.tdiv_eq_ediv (by omega) (by decide)]
    omega

/-- The proportional mapper applied to an angle in the clamped range
yields a velocity between minus 9 and 9 (fixed point). -/
lemma paddle1Vy_bounded (x : Int) (h0 : 0 ≤ x) (h1 : x ≤ int2fix15 180) :
    -int2fix15 9 ≤ paddle1Vy x ∧ paddle1Vy x ≤ int2fix15 9 := by
  unfold paddle1Vy divfix int2fix15 at *
  norm_num at *
  exact tdiv_bound ((x - 5898240) * 65536) (by omega) (by omega)

/-- The smoothed fused angle stored by one iteration is in the clamped
range, whatever the previous state and inputs were. -/
lemma paddle1Iter_fc_range (s : Paddle1State) (raw : RawSample)
    (accelAngle : Int) :
    0 ≤ (paddle1Iter s raw accelAngle).filtered_complementary ∧
      (paddle1Iter s raw accelAngle).filtered_complementary ≤ int2fix15 180 :=
  clampAngle_range _

/-- Running further iterations preserves the clamped range of the
smoothed fused angle. -/
lemma paddle1Run_fc_range (inputs : List (RawSample × Int)) :
    ∀ s : Paddle1State, 0 ≤ s.filtered_complementary →
      s.filtered_complementary ≤ int2fix15 180 →
      0 ≤ (paddle1Run s inputs).filtered_complementary ∧
        (paddle1Run s inputs).filtered_complementary ≤ int2fix15 180 := by
  induction inputs with
  | nil => exact fun s h0 h1 => ⟨h0, h1⟩
  | cons p rest ih =>
    intro s _ _
    exact ih (paddle1Iter s p.1 p.2) (paddle1Iter_fc_range s p.1 p.2).1
      (paddle1Iter_fc_range s p.1 p.2).2

/-- A fixed point of the paddle 2 loop body stays fixed for any number
of iterations. -/
lemma paddle2RunN_fixed (n : Nat) (s : Paddle2State)
    (h : paddle2Iter s = s) : paddle2RunN n s = s := by
  induction n with
  | zero => rfl
  | succ m ih => show paddle2RunN m (paddle2Iter s) = s; rw [h]; exact ih

/-- C1: after every control-loop iteration of the fusion filter, for
every sequence of raw samples, the second-stage smoothed output
filtered_complementary lies between 0 and 180 degrees, and the clamp
saturates to the nearest bound: a value above 180 is forced to 180 and a
value below 0 is forced to 0, never a wraparound. -/
theorem c1_filtered_complementary_clamped (s : Paddle1State)
    (raw : RawSample) (accelAngle : Int) (rest : List (RawSample × Int)) :
    (0 ≤ (paddle1Run (paddle1Iter s raw accelAngle)
        rest).filtered_complementary ∧
      (paddle1Run (paddle1Iter s raw accelAngle)
        rest).filtered_complementary ≤ int2fix15 180) ∧
    (∀ x : Int, clampAngle x = max 0 (min x (int2fix15 180))) := by
  refine ⟨paddle1Run_fc_range rest _ (paddle1Iter_fc_range s raw accelAngle).1
    (paddle1Iter_fc_range s raw accelAngle).2, ?_⟩
  intro x
  unfold clampAngle clampHigh int2fix15
  split_ifs <;> omega

/-- C2: each fusion iteration updates the fused angle as
0.999 * (complementaryAngle + gyroDelta) + 0.001 * accelAngle with
gyroDelta = gyro[0] * dt and dt = 0.001, all in the fixed-point
arithmetic of the module: the constants used are the nearest fixed-point
values to 0.999 and 0.001 (within half a unit of least precision, both
sides scaled by 1000), and the fixed-point multiply truncates the exact
product by discarding the low 16 bits. -/
theorem c2_fusion_update (s : Paddle1State) (raw : RawSample)
    (accelAngle : Int) :
    (paddle1Iter s raw accelAngle).complementary_angle =
      multfix15 (s.complementary_angle + multfix15 raw.gyro0 zeropt001)
        zeropt999 + multfix15 accelAngle zeropt001 ∧
    |1000 * zeropt999 - 999 * 65536| ≤ 500 ∧
    |1000 * zeropt001 - 65536| ≤ 500 ∧
    (∀ a b : Int, 0 ≤ a * b - 65536 * multfix15 a b ∧
      a * b - 65536 * multfix15 a b < 65536) := by
  refine ⟨rfl, by decide, by decide, ?_⟩
  intro a b
  unfold multfix15
  constructor <;> omega

/-- C3: the proportional mapper computes velocity = (angle - 90) / 10
from the clamped fused angle: each iteration stores the image of the
clamped filtered_complementary under paddle1Vy, the mapper is exact on
angles of the form 90 + 10k degrees, and in particular angle 90 gives
velocity 0, angle 180 gives 9 and angle 0 gives -9. -/
theorem c3_proportional_mapper :
    (∀ (s : Paddle1State) (raw : RawSample) (accelAngle : Int),
      (paddle1Iter s raw accelAngle).paddle1_vy =
        paddle1Vy (paddle1Iter s raw accelAngle).filtered_complementary) ∧
    (∀ k : Int, paddle1Vy (int2fix15 (90 + 10 * k)) = int2fix15 k) ∧
    paddle1Vy (int2fix15 90) = 0 ∧
    paddle1Vy (int2fix15 180) = int2fix15 9 ∧
    paddle1Vy (int2fix15 0) = -int2fix15 9 := by
  refine ⟨fun s raw accelAngle => rfl, ?_, by decide, by decide, by decide⟩
  intro k
  unfold paddle1Vy divfix int2fix15
  have h1 : ((90 + 10 * k) * 65536 - 90 * 65536) * 65536 =
      655360 * (k * 65536) := by ring
  have h2 : (10 : Int) * 65536 = 655360 := by norm_num
  rw [h1, h2]
  exact Int.mul_tdiv_cancel_left _ (by decide)

/-- C4: for every position in the legal travel range and every velocity,
one update commits a position between 0 and VGA_BOTTOM - PADDLE_LENGTH:
a tentative position below 0 is set to 0, one exceeding the upper bound
(accounting for the paddle length) is set to the upper bound, and
otherwise the tentative position y + vy is accepted. -/
theorem c4_position_clamped (y vy : Int) (hy0 : 0 ≤ y)
    (hy1 : y ≤ int2fix15 (VGA_BOTTOM - PADDLE_LENGTH)) :
    (0 ≤ paddle1Move y vy ∧
      paddle1Move y vy ≤ int2fix15 (VGA_BOTTOM - PADDLE_LENGTH)) ∧
    (y + vy < 0 → paddle1Move y vy = 0) ∧
    (y + vy > int2fix15 (VGA_BOTTOM - PADDLE_LENGTH) →
      paddle1Move y vy = int2fix15 (VGA_BOTTOM - PADDLE_LENGTH)) ∧
    (0 ≤ y + vy → y + vy ≤ int2fix15 (VGA_BOTTOM - PADDLE_LENGTH) →
      paddle1Move y vy = y + vy) := by
  unfold paddle1Move int2fix15 VGA_BOTTOM PADDLE_LENGTH at *
  norm_num at *
  refine ⟨?_, ?_, ?_, ?_⟩ <;> split_ifs <;> omega

/-- Witness for C4 at the boundary inputs of the spec examples: from
position 0 with velocity -5 the committed position is 0, and from the
upper bound with velocity +5 the committed position is the upper
bound. -/
theorem c4_position_clamped_witness :
    paddle1Move 0 (int2fix15 (-5)) = 0 ∧
    paddle1Move (int2fix15 440) (int2fix15 5) =
      int2fix15 (VGA_BOTTOM - PADDLE_LENGTH) :=
  ⟨(c4_position_clamped 0 (int2fix15 (-5)) (by decide) (by decide)).2.1
      (by decide),
    (c4_position_clamped (int2fix15 440) (int2fix15 5) (by decide)
      (by decide)).2.2.1 (by decide)⟩

/-- C5: for sample different from prev, the exponential smoothing step
with shift 4 produces an output between prev and sample inclusive: the
single-pole low-pass filter never overshoots. -/
theorem c5_smoothing_no_overshoot (prev sample : Int)
    (h : sample ≠ prev) :
    min prev sample ≤ exponentialSmooth prev sample 4 ∧
    exponentialSmooth prev sample 4 ≤ max prev sample := by
  unfold exponentialSmooth
  have e : ((2 : Int) ^ (4 : Nat)) = 16 := by norm_num
  rw [e]
  rcases le_total prev sample with hc | hc
  · rw [min_eq_left hc, max_eq_right hc]
    constructor <;> omega
  · rw [min_eq_right hc, max_eq_left hc]
    constructor <;> omega

/-- Witness for C5 at prev 0 and sample one degree in fixed point. -/
theorem c5_smoothing_no_overshoot_witness :
    min 0 (int2fix15 1) ≤ exponentialSmooth 0 (int2fix15 1) 4 ∧
    exponentialSmooth 0 (int2fix15 1) 4 ≤ max 0 (int2fix15 1) :=
  c5_smoothing_no_overshoot 0 (int2fix15 1) (by decide)

/-- C6 counterexample: the initial paddle 2 state of the source has
position 240 and velocity 0, which is a fixed point of the loop body, so
starting from the initial state the autonomous paddle never moves and no
oscillatory motion occurs; the first 1000 iterations are also checked
explicitly. -/
theorem c6_initial_state_stationary :
    paddle2Iter paddle2Init = paddle2Init ∧
    paddle2RunN 1000 paddle2Init = paddle2Init := by
  refine ⟨by decide, paddle2RunN_fixed 1000 paddle2Init (by decide)⟩

set_option maxRecDepth 8000 in
/-- C6 amended: the autonomous paddle sets its velocity to -5 when its
position has reached the bottom travel boundary and to +5 when it has
reached the top boundary, which reverses the sign of the velocity of
magnitude 5 it carries while bouncing, and it keeps the velocity
unchanged in the interior; from a boundary-started state such as
position 5 with velocity 5 the motion is periodic with period 176
iterations and is not stationary, while from the initial state of the
source (position 240, velocity 0) the paddle never moves. -/
theorem c6_bounce_rule :
    (∀ s : Paddle2State,
      s.paddle2_y + int2fix15 PADDLE_LENGTH ≥ int2fix15 VGA_BOTTOM →
      (paddle2Iter s).paddle2_vy = int2fix15 (-5)) ∧
    (∀ s : Paddle2State, s.paddle2_y ≤ 0 →
      s.paddle2_y + int2fix15 PADDLE_LENGTH < int2fix15 VGA_BOTTOM →
      (paddle2Iter s).paddle2_vy = int2fix15 5) ∧
    (∀ s : Paddle2State, 0 < s.paddle2_y →
      s.paddle2_y + int2fix15 PADDLE_LENGTH < int2fix15 VGA_BOTTOM →
      (paddle2Iter s).paddle2_vy = s.paddle2_vy) ∧
    paddle2RunN 176 (Paddle2State.mk (int2fix15 5) (int2fix15 5)) =
      Paddle2State.mk (int2fix15 5) (int2fix15 5) ∧
    paddle2Iter (Paddle2State.mk (int2fix15 5) (int2fix15 5)) ≠
      Paddle2State.mk (int2fix15 5) (int2fix15 5) := by
  refine ⟨?_, ?_, ?_, by decide, by decide⟩
  · intro s hs
    simp only [paddle2Iter, int2fix15, PADDLE_LENGTH, VGA_BOTTOM] at *
    split_ifs <;> omega
  · intro s hs1 hs2
    simp only [paddle2Iter, int2fix15, PADDLE_LENGTH, VGA_BOTTOM] at *
    split_ifs <;> omega
  · intro s hs1 hs2
    simp only [paddle2Iter, int2fix15, PADDLE_LENGTH, VGA_BOTTOM] at *
    split_ifs <;> omega

/-- Witness for the amended C6 at the two boundaries: at the bottom
boundary a velocity of 5 becomes -5, and at the top boundary a velocity
of -5 becomes 5. -/
theorem c6_bounce_rule_witness :
    (paddle2Iter (Paddle2State.mk (int2fix15 440)
      (int2fix15 5))).paddle2_vy = int2fix15 (-5) ∧
    (paddle2Iter (Paddle2State.mk 0
      (int2fix15 (-5)))).paddle2_vy = int2fix15 5 :=
  ⟨c6_bounce_rule.1 _ (by decide), c6_bounce_rule.2.1 _ (by decide)
    (by decide)⟩

/-- C7: the claim that no draw call is issued before the vsync signal
has been observed fails on this code: one iteration of each paddle
thread (here at the initial position 240) issues drawRect calls while
containing no semaphore wait at all; the vga_semaphore of source line 62
is declared but never waited on by any thread. -/
theorem c7_draw_without_vsync_wait :
    LoopEvent.drawRect PADDLE1_X (fix2int15 (int2fix15 240)) 10
        PADDLE_LENGTH RectColor.black ∈
      paddle1Events (int2fix15 240) (int2fix15 240) ∧
    LoopEvent.semWait ∉ paddle1Events (int2fix15 240) (int2fix15 240) ∧
    LoopEvent.semWait ∉ paddle2Events (int2fix15 240) (int2fix15 240) := by
  decide

/-- C8: the claim that a draw of the new position is dispatched only
when the position change exceeds the pixel threshold fails on this code:
the threshold of source line 54 has value 10 and is never consulted, and
an iteration whose position change is zero (old and new position both
240) still dispatches the white draw of the new position. -/
theorem c8_draw_not_rate_limited :
    threshold = 10 ∧
    LoopEvent.drawRect PADDLE1_X (fix2int15 (int2fix15 240)) 10
        PADDLE_LENGTH RectColor.white ∈
      paddle1Events (int2fix15 240) (int2fix15 240) := by
  decide

/-- C9: the claim that the proportional gain receives exactly the parsed
console value fails on this code: with console value 5 and a stale
test_in value of 0, the branch stores the parsed 5 into int_in but
assigns kp = int2fix15(test_in) = 0, which differs from int2fix15(5). -/
theorem c9_kp_not_parsed_value :
    (serialPBranch 5 0).1 = 5 ∧ (serialPBranch 5 0).2 = 0 ∧
    (serialPBranch 5 0).2 ≠ int2fix15 5 := by
  decide

/-- C10: after every iteration of the sensor-driven paddle task the
stored paddle velocity lies between -9 and 9 in fixed point, because it
is computed by the proportional mapper from the already clamped fused
angle. -/
theorem c10_velocity_bounded (s : Paddle1State) (raw : RawSample)
    (accelAngle : Int) :
    -int2fix15 9 ≤ (paddle1Iter s raw accelAngle).paddle1_vy ∧
    (paddle1Iter s raw accelAngle).paddle1_vy ≤ int2fix15 9 :=
  paddle1Vy_bounded _ (clampAngle_range _).1 (clampAngle_range _).2

end ImuDemo
